import Mathlib

set_option linter.unusedVariables false

/-
Verification of the cabinet-generator core (cabinet_copy.py).

Real-valued quantities of the source (Python floats) are modelled as
rationals, so that every dimensional formula of the program is exact.
Solids are modelled by their shape parameters, their center position and
the list of voids subtracted from them; this is all the geometry the
design's dimensional rules mention.
-/

namespace Cabinet

/-- Error taxonomy: `unsupportedDimension` is the ValueError raised by
`create_hinges` for door heights beyond the hinge table,
`invalidConfiguration` the ValueError raised by `create_cabinet` for an
unknown connector type, `invalidNumericValue` the ValueError raised by
Python float() on an unparsable override string. -/
inductive CabError where
  | invalidNumericValue
  | invalidConfiguration
  | unsupportedDimension
  deriving DecidableEq

/-- FrontType.NONE of the source enum. -/
def FrontType.NONE : ℤ := 0

/-- FrontType.DOOR of the source enum. -/
def FrontType.DOOR : ℤ := -1

/-- FrontType.DOUBLE_DOORS of the source enum. -/
def FrontType.DOUBLE_DOORS : ℤ := -2

/-- ConnectorType.SIDES_WIN of the source enum. -/
def ConnectorType.SIDES_WIN : ℤ := 0

/-- ConnectorType.TOP_BOTTOM_WIN of the source enum. -/
def ConnectorType.TOP_BOTTOM_WIN : ℤ := 1

/-- ConnectorType.MITERED of the source enum. -/
def ConnectorType.MITERED : ℤ := 2

/-- A point of cabinet-local 3d space. -/
structure Vec3 where
  x : ℚ
  y : ℚ
  z : ℚ
  deriving DecidableEq

def Vec3.add (a b : Vec3) : Vec3 := ⟨a.x + b.x, a.y + b.y, a.z + b.z⟩

/-- The two primitive shapes the program builds: cq box(w, h, d) and
cq cylinder(length, radius). -/
inductive Shape where
  | box (w h d : ℚ)
  | cylinder (len r : ℚ)
  deriving DecidableEq

/-- A solid: its primitive shape, the position of its center, and the
shapes/positions of the voids boolean-subtracted from it. -/
structure Solid where
  shape : Shape
  pos : Vec3
  cuts : List (Shape × Vec3)
  deriving DecidableEq

/-- cq Workplane.translate: moves the solid and its voids. -/
def Solid.translate (s : Solid) (v : Vec3) : Solid :=
  { s with pos := s.pos.add v, cuts := s.cuts.map fun c => (c.1, c.2.add v) }

/-- cq Workplane.cut: boolean difference, recorded as a void. -/
def Solid.cut (s t : Solid) : Solid :=
  { s with cuts := s.cuts ++ [(t.shape, t.pos)] }

/-- cq Workplane("XY").box(w, h, d): a box at the origin. -/
def box (w h d : ℚ) : Solid := ⟨.box w h d, ⟨0, 0, 0⟩, []⟩

/-- cq Workplane("XY").cylinder(len, r): a cylinder at the origin. -/
def cylinder (len r : ℚ) : Solid := ⟨.cylinder len r, ⟨0, 0, 0⟩, []⟩

/-- Width extent of a box shape. -/
def shapeW : Shape → ℚ
  | .box w _ _ => w
  | .cylinder _ r => r

/-- Height extent of a box shape. -/
def shapeH : Shape → ℚ
  | .box _ h _ => h
  | .cylinder len _ => len

/-- Depth extent of a box shape. -/
def shapeD : Shape → ℚ
  | .box _ _ d => d
  | .cylinder _ r => r

/-- An RGB color (cq.Color). -/
structure Color where
  r : ℚ
  g : ℚ
  b : ℚ
  deriving DecidableEq

/-- Whitespace characters stripped by Python str.strip(). -/
def isPySpace (c : Char) : Bool :=
  c = ' ' || c = '\t' || c = '\n' || c = '\r' || c = '\x0b' || c = '\x0c'

/-- Python str.strip(): drop leading and trailing whitespace. -/
def trimChars (cs : List Char) : List Char :=
  ((cs.dropWhile isPySpace).reverse.dropWhile isPySpace).reverse

/-- Value of a decimal digit character. -/
def digitVal? (c : Char) : Option ℕ :=
  if c.isDigit then some (c.toNat - 48) else none

/-- Value of a possibly empty run of decimal digit characters. -/
def parseDigits? (cs : List Char) : Option ℕ :=
  cs.foldl (fun acc c => acc.bind fun n => (digitVal? c).map fun d => n * 10 + d) (some 0)

/-- Split a character list at the decimal-point characters. -/
def splitDot : List Char → List (List Char)
  | [] => [[]]
  | c :: rest =>
    if c = '.' then [] :: splitDot rest
    else
      match splitDot rest with
      | [] => [[c]]
      | g :: gs => (c :: g) :: gs

/-- Python float() restricted to plain decimal literals: optional
surrounding whitespace, optional sign, digits with at most one decimal
point, at least one digit present. Returns none where float() raises
ValueError. -/
def pyFloat? (s : String) : Option ℚ :=
  let t := trimChars s.toList
  let sb : ℚ × List Char :=
    match t with
    | '-' :: rest => (-1, rest)
    | '+' :: rest => (1, rest)
    | _ => (1, t)
  match splitDot sb.2 with
  | [w] =>
    if w.isEmpty then none
    else (parseDigits? w).map fun n => sb.1 * (n : ℚ)
  | [w, f] =>
    if w.isEmpty && f.isEmpty then none
    else
      (parseDigits? w).bind fun wn =>
        (parseDigits? f).map fun fn =>
          sb.1 * ((wn : ℚ) + (fn : ℚ) / (10 : ℚ) ^ f.length)
  | _ => none

/-- Source get_panel_thickness: the global thickness if no override is
provided (absent or blank), else the override parsed as a float; an
unparsable non-blank override raises from float(). -/
def get_panel_thickness (global_thickness : ℚ)
    (panel_thickness_override : Option String) : Except CabError ℚ :=
  match panel_thickness_override with
  | none => .ok global_thickness
  | some s =>
    if (trimChars s.toList).isEmpty then .ok global_thickness
    else
      match pyFloat? s with
      | some v => .ok v
      | none => .error .invalidNumericValue

/-- Source create_hinges: the hinge count is a step function of the
door height (raising beyond 3000); hinge i is a cylinder translated to
vertical position 90 + i * spacing with
spacing = (door_height - 2 * 90) / (num_hinges - 1). -/
def create_hinges (door_height hinge_diameter hinge_length : ℚ) :
    Except CabError (List Solid) :=
  match (if door_height ≤ 600 then Except.ok 2
    else if door_height ≤ 900 then Except.ok 3
    else if door_height ≤ 2000 then Except.ok 4
    else if door_height ≤ 2400 then Except.ok 5
    else if door_height ≤ 3000 then Except.ok 6
    else Except.error CabError.unsupportedDimension : Except CabError ℕ) with
  | .error e => .error e
  | .ok num_hinges =>
    let spacing := (door_height - 2 * 90) / ((num_hinges : ℚ) - 1)
    .ok ((List.range num_hinges).map fun i : ℕ =>
      (cylinder hinge_length (hinge_diameter / 2)).translate
        ⟨0, 90 + (i : ℚ) * spacing, 0⟩)

/-- Source create_feet: four corner feet; if width > 600, int(width // 600)
extra front/back foot pairs evenly spaced across the width. -/
def create_feet (width depth foot_diameter foot_height : ℚ) : List Solid :=
  let front_left := (cylinder foot_height (foot_diameter / 2)).translate
    ⟨-width / 2 + 50, 0, -depth / 2 + 150⟩
  let front_right := (cylinder foot_height (foot_diameter / 2)).translate
    ⟨width / 2 - 50, 0, -depth / 2 + 150⟩
  let back_left := (cylinder foot_height (foot_diameter / 2)).translate
    ⟨-width / 2 + 50, 0, depth / 2 - 100⟩
  let back_right := (cylinder foot_height (foot_diameter / 2)).translate
    ⟨width / 2 - 50, 0, depth / 2 - 100⟩
  let base := [front_left, front_right, back_left, back_right]
  if 600 < width then
    let num_extra_feet := (Rat.floor (width / 600)).toNat
    let spacing := width / ((num_extra_feet : ℚ) + 1)
    base ++ (List.range num_extra_feet).flatMap fun i : ℕ =>
      [(cylinder foot_height (foot_diameter / 2)).translate
        ⟨-width / 2 + ((i : ℚ) + 1) * spacing, 0, -depth / 2 + 150⟩,
       (cylinder foot_height (foot_diameter / 2)).translate
        ⟨-width / 2 + ((i : ℚ) + 1) * spacing, 0, depth / 2 - 100⟩]
  else base

/-- Hinge boring diameter, a constant of create_cabinet. -/
def hinge_diameter : ℚ := 35

/-- Hinge boring depth, a constant of create_cabinet. -/
def hinge_length : ℚ := 13

/-- Foot diameter, a constant of create_cabinet. -/
def foot_diameter : ℚ := 50

/-- Foot height, a constant of create_cabinet. -/
def foot_height : ℚ := 100

/-- Clearance between the hinge hole and the door edge, a constant of
create_cabinet. -/
def distance_hole_edge_of_front : ℚ := 5

/-- The fronts/hinges dispatch of create_cabinet (source lines 118-161):
door, double doors, n drawers for front_type > 0, and the final silent
fall-through that produces no fronts. Returns the front solids (with
their hinge voids carved) and the recorded hinge hardware parts. -/
def create_fronts_and_hinges (width height adjusted_depth front_thickness : ℚ)
    (front_type : ℤ) (add_hardware : Bool) :
    Except CabError (List Solid × List Solid) :=
  if front_type = FrontType.DOOR then
    let door0 := (box width height front_thickness).translate
      ⟨0, height / 2, adjusted_depth / 2 + front_thickness / 2⟩
    if add_hardware then
      match create_hinges height hinge_diameter hinge_length with
      | .error e => .error e
      | .ok hinge_parts =>
        let zeroX := width / 2 - hinge_diameter / 2
        let positionX := zeroX - distance_hole_edge_of_front
        let zeroZ := adjusted_depth / 2 + hinge_length / 2
        let door := hinge_parts.foldl
          (fun d hg => d.cut (hg.translate ⟨positionX, 0, zeroZ⟩)) door0
        .ok ([door], hinge_parts.map fun hg => hg.translate ⟨positionX, 0, zeroZ⟩)
    else .ok ([door0], [])
  else if front_type = FrontType.DOUBLE_DOORS then
    let door_width := width / 2
    let left_door0 := (box door_width height front_thickness).translate
      ⟨-width / 4, height / 2, adjusted_depth / 2 + front_thickness / 2⟩
    let right_door0 := (box door_width height front_thickness).translate
      ⟨width / 4, height / 2, adjusted_depth / 2 + front_thickness / 2⟩
    if add_hardware then
      match create_hinges height hinge_diameter hinge_length with
      | .error e => .error e
      | .ok hinge_parts_left =>
        match create_hinges height hinge_diameter hinge_length with
        | .error e => .error e
        | .ok hinge_parts_right =>
          let zeroX := door_width / 2 - hinge_diameter / 2
          let zeroZ := adjusted_depth / 2 + hinge_length / 2
          let positionX_left := -zeroX + distance_hole_edge_of_front
          let left_door := hinge_parts_left.foldl
            (fun d hg => d.cut (hg.translate ⟨positionX_left, 0, zeroZ⟩)) left_door0
          let hinges_left := hinge_parts_left.map fun hg =>
            hg.translate ⟨positionX_left - door_width, height / 2, zeroZ⟩
          let positionX_right := zeroX - distance_hole_edge_of_front
          let right_door := hinge_parts_right.foldl
            (fun d hg => d.cut (hg.translate ⟨positionX_right, 0, zeroZ⟩)) right_door0
          let hinges_right := hinge_parts_right.map fun hg =>
            hg.translate ⟨positionX_right + door_width, height / 2, zeroZ⟩
          .ok ([left_door, right_door], hinges_left ++ hinges_right)
    else .ok ([left_door0, right_door0], [])
  else if 0 < front_type then
    let drawer_height := height / (front_type : ℚ)
    .ok ((List.range front_type.toNat).map fun i : ℕ =>
      (box width drawer_height front_thickness).translate
        ⟨0, drawer_height / 2 + (i : ℚ) * drawer_height,
          adjusted_depth / 2 + front_thickness / 2⟩, [])
  else .ok ([], [])

/-- The five carcass panels of one cabinet. -/
structure Panels where
  top : Solid
  bottom : Solid
  left_side : Solid
  right_side : Solid
  back : Solid
  deriving DecidableEq

/-- The parts returned by create_cabinet. -/
structure CabinetParts where
  panels : Panels
  fronts : List Solid
  shelves : List Solid
  hinges : List Solid
  feet : List Solid
  deriving DecidableEq

/-- The adjusted carcass depth of create_cabinet:
depth - front_thickness if front_type != FrontType.NONE else depth. -/
def adjusted_depth_for (depth front_thickness : ℚ) (front_type : ℤ) : ℚ :=
  if front_type ≠ FrontType.NONE then depth - front_thickness else depth

/-- The connector-type dispatch of create_cabinet (source lines 99-108):
the width and height adjustments of the joint policy, raising on an
unknown connector code. -/
def connector_adjustments
    (top_thickness bottom_thickness left_thickness right_thickness : ℚ)
    (connector_type : ℤ) : Except CabError (ℚ × ℚ) :=
  if connector_type = ConnectorType.MITERED then .ok (0, 0)
  else if connector_type = ConnectorType.TOP_BOTTOM_WIN then
    .ok (0, top_thickness + bottom_thickness)
  else if connector_type = ConnectorType.SIDES_WIN then
    .ok (left_thickness + right_thickness, 0)
  else .error CabError.invalidConfiguration

/-- The panel dictionary of create_cabinet (source lines 110-116). -/
def carcass_panels (width height adjusted_depth : ℚ)
    (top_thickness bottom_thickness left_thickness right_thickness back_thickness : ℚ)
    (width_adjustment height_adjustment : ℚ) : Panels :=
  { top := (box (width - width_adjustment) top_thickness adjusted_depth).translate
      ⟨0, height - top_thickness / 2, 0⟩
    bottom := (box (width - width_adjustment) bottom_thickness adjusted_depth).translate
      ⟨0, bottom_thickness / 2, 0⟩
    left_side := (box left_thickness (height - height_adjustment) adjusted_depth).translate
      ⟨-width / 2 + left_thickness / 2, height / 2, 0⟩
    right_side := (box right_thickness (height - height_adjustment) adjusted_depth).translate
      ⟨width / 2 - right_thickness / 2, height / 2, 0⟩
    back := (box (width - left_thickness - right_thickness)
        (height - top_thickness - bottom_thickness) back_thickness).translate
      ⟨0, (height - top_thickness - bottom_thickness) / 2 + bottom_thickness,
        -adjusted_depth / 2 + back_thickness / 2⟩ }

/-- The shelf loop of create_cabinet (source lines 166-173). -/
def cabinet_shelves (width height depth adjusted_depth : ℚ)
    (top_thickness bottom_thickness left_thickness right_thickness back_thickness
      front_thickness shelf_thickness : ℚ) (shelf_amount : ℤ) : List Solid :=
  if 0 < shelf_amount then
    let shelf_spacing :=
      (height - top_thickness - bottom_thickness) / ((shelf_amount : ℚ) + 1)
    let shelf_width := width - left_thickness - right_thickness
    let shelf_depth :=
      if back_thickness = 0 then adjusted_depth else adjusted_depth - back_thickness
    (List.range shelf_amount.toNat).map fun i : ℕ =>
      (box shelf_width shelf_thickness shelf_depth).translate
        ⟨-width / 2 + left_thickness + shelf_width / 2,
          bottom_thickness + ((i : ℚ) + 1) * shelf_spacing,
          -depth / 2 + front_thickness + shelf_depth / 2⟩
  else []

/-- Source create_cabinet: adjusted depth, connector-type joint policy
(raising on an unknown code), the five panels, the fronts/hinges
dispatch, the feet (only when bottom_thickness > 0) and the shelves
(only when shelf_amount > 0). The two colors are accepted and unused,
as in the source. -/
def create_cabinet (width height depth : ℚ) (front_type : ℤ)
    (global_thickness top_thickness bottom_thickness left_thickness right_thickness
      back_thickness front_thickness shelf_thickness : ℚ)
    (shelf_amount : ℤ) (connector_type : ℤ)
    (corpus_color front_color : Color) (add_hardware : Bool) :
    Except CabError CabinetParts :=
  let adjusted_depth := adjusted_depth_for depth front_thickness front_type
  match connector_adjustments top_thickness bottom_thickness left_thickness
      right_thickness connector_type with
  | .error e => .error e
  | .ok (width_adjustment, height_adjustment) =>
    let panels := carcass_panels width height adjusted_depth top_thickness
      bottom_thickness left_thickness right_thickness back_thickness
      width_adjustment height_adjustment
    match create_fronts_and_hinges width height adjusted_depth front_thickness
        front_type add_hardware with
    | .error e => .error e
    | .ok (fronts, hinges) =>
      let feet : List Solid :=
        if 0 < bottom_thickness then create_feet width depth foot_diameter foot_height
        else []
      let shelves := cabinet_shelves width height depth adjusted_depth top_thickness
        bottom_thickness left_thickness right_thickness back_thickness
        front_thickness shelf_thickness shelf_amount
      .ok ⟨panels, fronts, shelves, hinges, feet⟩

/-- Python str.capitalize(): first character upper-cased, the rest
lower-cased. -/
def capitalize (s : String) : String :=
  match s.toList with
  | [] => ""
  | c :: rest => String.mk (c.toUpper :: rest.map Char.toLower)

/-- A named, colored part placed into the assembly with a location
transform (cq Assembly.add). -/
structure AsmItem where
  name : String
  part : Solid
  loc : Vec3
  color : Color
  deriving DecidableEq

/-- The fixed gray used for hinge and foot hardware. -/
def gray : Color := ⟨1 / 2, 1 / 2, 1 / 2⟩

/-- The panel dictionary of create_cabinet in its insertion order. -/
def panelsList (ps : Panels) : List (String × Solid) :=
  [("top", ps.top), ("bottom", ps.bottom), ("left_side", ps.left_side),
   ("right_side", ps.right_side), ("back", ps.back)]

/-- Source add_cabinet_to_assembly: every panel, front, shelf, hinge and
foot of one cabinet is added under the same location
(position + width / 2, 0, -depth / 2), with 1-indexed names. -/
def add_cabinet_to_assembly (name : String) (parts : CabinetParts)
    (corpus_color front_color : Color) (position width depth : ℚ) : List AsmItem :=
  let loc : Vec3 := ⟨position + width / 2, 0, -depth / 2⟩
  ((panelsList parts.panels).map fun pn =>
    ⟨capitalize pn.1, pn.2, loc, corpus_color⟩) ++
  (parts.fronts.enum.map fun p =>
    ⟨"Front " ++ toString (p.1 + 1), p.2, loc, front_color⟩) ++
  (parts.shelves.enum.map fun p =>
    ⟨"Shelf " ++ toString (p.1 + 1), p.2, loc, corpus_color⟩) ++
  (parts.hinges.enum.map fun p =>
    ⟨"Hinge " ++ toString (p.1 + 1), p.2, loc, gray⟩) ++
  (parts.feet.enum.map fun p =>
    ⟨"Foot " ++ toString (p.1 + 1), p.2, loc, gray⟩)

/-- One already-built cabinet of the main loop: its name, outer width and
depth, parts and colors. -/
structure CabinetRow where
  name : String
  width : ℚ
  depth : ℚ
  parts : CabinetParts
  corpus_color : Color
  front_color : Color
  deriving DecidableEq

/-- The layout loop of main, from a given running x position: each
cabinet is placed at the current position, which then advances by the
cabinet's width. -/
def main_layout_from (x : ℚ) : List CabinetRow → List (List AsmItem)
  | [] => []
  | row :: rest =>
    add_cabinet_to_assembly row.name row.parts row.corpus_color row.front_color
      x row.width row.depth :: main_layout_from (x + row.width) rest

/-- The layout loop of main: the running x position starts at 0. -/
def main_layout (rows : List CabinetRow) : List (List AsmItem) :=
  main_layout_from 0 rows

/-- The result of a fallible computation, when it succeeded. -/
def partsOf (e : Except CabError CabinetParts) : Option CabinetParts :=
  match e with
  | .ok p => some p
  | .error _ => none

/-- The shelves of a successfully created cabinet ([] on error). -/
def shelvesOf (e : Except CabError CabinetParts) : List Solid :=
  match e with
  | .ok p => p.shelves
  | .error _ => []

/-- The positions of the voids carved out of front number i of a
successfully created cabinet. -/
def doorVoidPositions (e : Except CabError CabinetParts) (i : ℕ) : List Vec3 :=
  match e with
  | .ok p =>
    match p.fronts.get? i with
    | some f => f.cuts.map Prod.snd
    | none => []
  | .error _ => []

/-- The positions of the recorded hinge hardware parts of a successfully
created cabinet. -/
def recordedHingePositions (e : Except CabError CabinetParts) : List Vec3 :=
  match e with
  | .ok p => p.hinges.map Solid.pos
  | .error _ => []

/-- The hinge count chosen by create_hinges for a door height within the
supported range. -/
def num_hinges_for (h : ℚ) : ℕ :=
  if h ≤ 600 then 2
  else if h ≤ 900 then 3
  else if h ≤ 2000 then 4
  else if h ≤ 2400 then 5
  else 6

theorem num_hinges_for_ge_two (h : ℚ) : 2 ≤ num_hinges_for h := by
  unfold num_hinges_for
  split_ifs <;> norm_num

theorem cylinder_translate (len r : ℚ) (v : Vec3) :
    (cylinder len r).translate v = ⟨.cylinder len r, v, []⟩ := by
  simp [cylinder, Solid.translate, Vec3.add]

theorem box_translate (w h d : ℚ) (v : Vec3) :
    (box w h d).translate v = ⟨.box w h d, v, []⟩ := by
  simp [box, Solid.translate, Vec3.add]

theorem translate_shape (s : Solid) (v : Vec3) : (s.translate v).shape = s.shape := rfl

theorem translate_pos (s : Solid) (v : Vec3) : (s.translate v).pos = s.pos.add v := rfl

/-- Closed form of create_hinges within the supported height range. -/
theorem create_hinges_ok (h d l : ℚ) (h3 : h ≤ 3000) :
    create_hinges h d l = .ok ((List.range (num_hinges_for h)).map fun i : ℕ =>
      ⟨.cylinder l (d / 2),
       ⟨0, 90 + (i : ℚ) * ((h - 2 * 90) / ((num_hinges_for h : ℚ) - 1)), 0⟩, []⟩) := by
  by_cases h1 : h ≤ 600
  · simp [create_hinges, num_hinges_for, h1, cylinder_translate]
  by_cases h2 : h ≤ 900
  · simp [create_hinges, num_hinges_for, h1, h2, cylinder_translate]
  by_cases h4 : h ≤ 2000
  · simp [create_hinges, num_hinges_for, h1, h2, h4, cylinder_translate]
  by_cases h5 : h ≤ 2400
  · simp [create_hinges, num_hinges_for, h1, h2, h4, h5, cylinder_translate]
  · simp [create_hinges, num_hinges_for, h1, h2, h4, h5, h3, cylinder_translate]

/-- create_hinges raises beyond door height 3000. -/
theorem create_hinges_err (h d l : ℚ) (h3 : 3000 < h) :
    create_hinges h d l = .error .unsupportedDimension := by
  have n1 : ¬ h ≤ 600 := by linarith
  have n2 : ¬ h ≤ 900 := by linarith
  have n3 : ¬ h ≤ 2000 := by linarith
  have n4 : ¬ h ≤ 2400 := by linarith
  have n5 : ¬ h ≤ 3000 := by linarith
  simp [create_hinges, n1, n2, n3, n4, n5]

/-- C1: for every door height h with 0 < h ≤ 3000, hinge creation returns
exactly count(h) hinges, where count(h) = 2 if h ≤ 600, 3 if h ≤ 900,
4 if h ≤ 2000, 5 if h ≤ 2400, 6 if h ≤ 3000, positioned vertically at
90 + i * (h - 180) / (count(h) - 1) for i = 0 .. count(h) - 1, so the
first hinge sits at 90 and the last at h - 90; for every h > 3000 hinge
creation fails with the unsupported-dimension error. -/
theorem hinge_creation_spec (h d l : ℚ) (h0 : 0 < h) :
    (h ≤ 3000 → ∃ hs : List Solid, create_hinges h d l = .ok hs ∧
      hs.length = (if h ≤ 600 then 2 else if h ≤ 900 then 3
        else if h ≤ 2000 then 4 else if h ≤ 2400 then 5 else 6) ∧
      hs.map Solid.pos = (List.range hs.length).map (fun i : ℕ =>
        ⟨0, 90 + (i : ℚ) * ((h - 180) / ((hs.length : ℚ) - 1)), 0⟩) ∧
      (hs.map Solid.pos).head? = some ⟨0, 90, 0⟩ ∧
      (hs.map Solid.pos).getLast? = some ⟨0, h - 90, 0⟩) ∧
    (3000 < h → create_hinges h d l = .error .unsupportedDimension) := by
  constructor
  · intro h3
    refine ⟨_, create_hinges_ok h d l h3, ?_, ?_, ?_, ?_⟩
    · simp [num_hinges_for]
    · simp [List.map_map]
      norm_num
    · have h2 : 0 < num_hinges_for h := lt_of_lt_of_le (by norm_num) (num_hinges_for_ge_two h)
      obtain ⟨m, hm⟩ : ∃ m, num_hinges_for h = m + 1 := ⟨num_hinges_for h - 1, by omega⟩
      simp [hm, List.range_succ_eq_map]
    · have h2 : 2 ≤ num_hinges_for h := num_hinges_for_ge_two h
      obtain ⟨m, hm⟩ : ∃ m, num_hinges_for h = m + 1 := ⟨num_hinges_for h - 1, by omega⟩
      have hm1 : 1 ≤ m := by omega
      have hmq : (m : ℚ) ≠ 0 := Nat.cast_ne_zero.mpr (by omega)
      simp [hm, List.range_succ, List.getLast?_map, List.getLast?_concat, List.map_append]
      field_simp
      ring
  · intro h3
    exact create_hinges_err h d l h3

/-- Witness for hinge_creation_spec at door height 1000 with the
source's hinge diameter 35 and length 13. -/
theorem hinge_creation_spec_witness :
    0 < (1000 : ℚ) ∧
    (((1000 : ℚ) ≤ 3000 → ∃ hs : List Solid, create_hinges 1000 35 13 = .ok hs ∧
      hs.length = (if (1000 : ℚ) ≤ 600 then 2 else if (1000 : ℚ) ≤ 900 then 3
        else if (1000 : ℚ) ≤ 2000 then 4 else if (1000 : ℚ) ≤ 2400 then 5 else 6) ∧
      hs.map Solid.pos = (List.range hs.length).map (fun i : ℕ =>
        ⟨0, 90 + (i : ℚ) * (((1000 : ℚ) - 180) / ((hs.length : ℚ) - 1)), 0⟩) ∧
      (hs.map Solid.pos).head? = some ⟨0, 90, 0⟩ ∧
      (hs.map Solid.pos).getLast? = some ⟨0, (1000 : ℚ) - 90, 0⟩) ∧
    (3000 < (1000 : ℚ) → create_hinges 1000 35 13 = .error .unsupportedDimension)) :=
  ⟨by norm_num, hinge_creation_spec 1000 35 13 (by norm_num)⟩

/-- Total length of the per-index two-element lists emitted by the
extra-feet loop. -/
theorem sum_map_length_two {α β : Type} (f g : β → α) (l : List β) :
    (l.map (List.length ∘ fun b => [f b, g b])).sum = 2 * l.length := by
  induction l with
  | nil => simp
  | cons a t ih =>
    simp [ih]
    ring

/-- C2 counterexample: at width 1200 the code produces 8 feet (four
corner feet plus int(1200 // 600) = 2 extra front/back pairs), not the
6 feet the claim states. -/
theorem feet_count_at_1200 :
    (create_feet 1200 600 50 100).length = 8 ∧
    (create_feet 1200 600 50 100).length ≠ 6 := by
  have hf : Rat.floor ((1200 : ℚ) / 600) = 2 := by norm_num [Rat.floor]
  have h6 : (600 : ℚ) < 1200 := by norm_num
  constructor <;>
  · simp [create_feet, hf, h6]
    rw [sum_map_length_two]
    simp

/-- C2 amended: the total foot count is 4 for width ≤ 600 and
4 + 2 * int(width // 600) for width > 600: four base corner feet, plus
one extra front-row foot and one extra back-row foot per spacing index
with extra count int(width // 600). Hence width 500 gives 4 feet, 600
gives 4, 601 gives 6, 1201 gives 8 - and 1200 gives 8, not the 6 the
claim lists. -/
theorem feet_count_spec :
    (∀ width depth fd fh : ℚ, (create_feet width depth fd fh).length =
      if 600 < width then 4 + 2 * (Rat.floor (width / 600)).toNat else 4) ∧
    (create_feet 500 400 50 100).length = 4 ∧
    (create_feet 600 400 50 100).length = 4 ∧
    (create_feet 601 400 50 100).length = 6 ∧
    (create_feet 1200 400 50 100).length = 8 ∧
    (create_feet 1201 400 50 100).length = 8 := by
  have key : ∀ width depth fd fh : ℚ, (create_feet width depth fd fh).length =
      if 600 < width then 4 + 2 * (Rat.floor (width / 600)).toNat else 4 := by
    intro width depth fd fh
    by_cases hw : 600 < width
    · simp [create_feet, hw]
      rw [sum_map_length_two]
      simp
      omega
    · simp [create_feet, hw]
  refine ⟨key, ?_, ?_, ?_, ?_, ?_⟩ <;>
  · rw [key]
    norm_num [Rat.floor]
    try decide

theorem connector_adjustments_sides (tt bt lt rt : ℚ) :
    connector_adjustments tt bt lt rt ConnectorType.SIDES_WIN = .ok (lt + rt, 0) := rfl

theorem connector_adjustments_top_bottom (tt bt lt rt : ℚ) :
    connector_adjustments tt bt lt rt ConnectorType.TOP_BOTTOM_WIN =
      .ok (0, tt + bt) := rfl

theorem connector_adjustments_mitered (tt bt lt rt : ℚ) :
    connector_adjustments tt bt lt rt ConnectorType.MITERED = .ok (0, 0) := rfl

theorem connector_adjustments_invalid (tt bt lt rt : ℚ) (ct : ℤ)
    (h0 : ct ≠ 0) (h1 : ct ≠ 1) (h2 : ct ≠ 2) :
    connector_adjustments tt bt lt rt ct = .error .invalidConfiguration := by
  simp [connector_adjustments, ConnectorType.MITERED, ConnectorType.TOP_BOTTOM_WIN,
    ConnectorType.SIDES_WIN, h0, h1, h2]

/-- Closed form of create_cabinet once the connector dispatch and the
fronts/hinges dispatch are known to succeed. -/
theorem create_cabinet_eq {w h d : ℚ} {ft : ℤ} (gt : ℚ) {tt bt lt rt : ℚ}
    (bkt : ℚ) {fth : ℚ} (sth : ℚ) (sa : ℤ) {ct : ℤ} (cc fc : Color) {hw : Bool}
    {wa ha : ℚ} {fr hi : List Solid}
    (hconn : connector_adjustments tt bt lt rt ct = .ok (wa, ha))
    (hfr : create_fronts_and_hinges w h (adjusted_depth_for d fth ft) fth ft hw =
      .ok (fr, hi)) :
    create_cabinet w h d ft gt tt bt lt rt bkt fth sth sa ct cc fc hw =
      .ok ⟨carcass_panels w h (adjusted_depth_for d fth ft) tt bt lt rt bkt wa ha,
           fr,
           cabinet_shelves w h d (adjusted_depth_for d fth ft) tt bt lt rt bkt fth sth sa,
           hi,
           if 0 < bt then create_feet w d foot_diameter foot_height else []⟩ := by
  simp only [create_cabinet, hconn, hfr]

/-- create_cabinet propagates the connector-dispatch error. -/
theorem create_cabinet_conn_err (w h d : ℚ) (ft : ℤ) (gt : ℚ) {tt bt lt rt : ℚ}
    (bkt fth sth : ℚ) (sa : ℤ) {ct : ℤ} (cc fc : Color) (hw : Bool)
    (hconn : connector_adjustments tt bt lt rt ct = .error .invalidConfiguration) :
    create_cabinet w h d ft gt tt bt lt rt bkt fth sth sa ct cc fc hw =
      .error .invalidConfiguration := by
  unfold create_cabinet
  rw [hconn]

/-- The fronts/hinges dispatch never fails when hardware is off or the
door height is within the hinge table. -/
theorem create_fronts_ok (w h adjD fth : ℚ) (ft : ℤ) (hw : Bool)
    (hhw : hw = false ∨ h ≤ 3000) :
    ∃ fh, create_fronts_and_hinges w h adjD fth ft hw = .ok fh := by
  unfold create_fronts_and_hinges
  rcases hhw with hhw | hhw
  · subst hhw
    split_ifs <;> first | exact ⟨_, rfl⟩ | simp_all
  · have hok := create_hinges_ok h hinge_diameter hinge_length hhw
    split_ifs <;> (try rw [hok]) <;> exact ⟨_, rfl⟩

/-- C8: for every valid cabinet and every recognized connector-type
policy, the back panel satisfies
backPanel.width + leftThickness + rightThickness = width and
backPanel.height + topThickness + bottomThickness = height: the back
panel's extents are unaffected by the joint policy. -/
theorem back_panel_invariant (w h d gt tt bt lt rt bkt fth sth : ℚ)
    (sa ft : ℤ) (cc fc : Color) (hw : Bool) (ct : ℤ)
    (hct : ct = ConnectorType.SIDES_WIN ∨ ct = ConnectorType.TOP_BOTTOM_WIN ∨
      ct = ConnectorType.MITERED)
    (hhw : hw = false ∨ h ≤ 3000) :
    (partsOf (create_cabinet w h d ft gt tt bt lt rt bkt fth sth sa ct cc fc hw)).map
      (fun p => (shapeW p.panels.back.shape + lt + rt,
                 shapeH p.panels.back.shape + tt + bt)) = some (w, h) := by
  obtain ⟨⟨fr, hi⟩, hfr⟩ :=
    create_fronts_ok w h (adjusted_depth_for d fth ft) fth ft hw hhw
  rcases hct with hct | hct | hct <;> subst hct
  · rw [create_cabinet_eq gt bkt sth sa cc fc
      (connector_adjustments_sides tt bt lt rt) hfr]
    simp [partsOf, carcass_panels, box_translate, shapeW, shapeH]
    constructor <;> ring
  · rw [create_cabinet_eq gt bkt sth sa cc fc
      (connector_adjustments_top_bottom tt bt lt rt) hfr]
    simp [partsOf, carcass_panels, box_translate, shapeW, shapeH]
    constructor <;> ring
  · rw [create_cabinet_eq gt bkt sth sa cc fc
      (connector_adjustments_mitered tt bt lt rt) hfr]
    simp [partsOf, carcass_panels, box_translate, shapeW, shapeH]
    constructor <;> ring

/-- Witness for back_panel_invariant: a 600 x 720 x 560 cabinet with 18 mm
panels, no front, no shelves, sides-win connector, hardware off. -/
theorem back_panel_invariant_witness :
    ((0 : ℤ) = ConnectorType.SIDES_WIN ∨ (0 : ℤ) = ConnectorType.TOP_BOTTOM_WIN ∨
      (0 : ℤ) = ConnectorType.MITERED) ∧
    (partsOf (create_cabinet 600 720 560 0 18 18 18 18 18 18 18 18 0 0
        ⟨0, 0, 1⟩ ⟨1, 0, 0⟩ false)).map
      (fun p => (shapeW p.panels.back.shape + 18 + 18,
                 shapeH p.panels.back.shape + 18 + 18)) = some (600, 720) :=
  ⟨Or.inl rfl,
   back_panel_invariant 600 720 560 18 18 18 18 18 18 18 18 0 0
     ⟨0, 0, 1⟩ ⟨1, 0, 0⟩ false 0 (Or.inl rfl) (Or.inl rfl)⟩

/-- The fronts/hinges dispatch falls through silently (no fronts, no
hinges, no error) for any front-type code below -2. -/
theorem create_fronts_fallthrough (w h adjD fth : ℚ) (ft : ℤ) (hw : Bool)
    (hft : ft < -2) :
    create_fronts_and_hinges w h adjD fth ft hw = .ok ([], []) := by
  have h1 : ft ≠ FrontType.DOOR := by simp only [FrontType.DOOR]; omega
  have h2 : ft ≠ FrontType.DOUBLE_DOORS := by simp only [FrontType.DOUBLE_DOORS]; omega
  have h3 : ¬ (0 : ℤ) < ft := by omega
  simp [create_fronts_and_hinges, h1, h2, h3]

/-- The adjusted depth subtracts the front thickness whenever the
front-type code is not NONE. -/
theorem adjusted_depth_of_ne (d fth : ℚ) (ft : ℤ) (hft : ft ≠ FrontType.NONE) :
    adjusted_depth_for d fth ft = d - fth := by
  simp [adjusted_depth_for, hft]

/-- C9: for every front-type code less than -2, cabinet creation raises
no error: it returns an empty front list and no hinges, yet still
reduces the carcass depth by front_thickness, because the
depth-adjustment check only tests front_type against NONE while the
front dispatch has no fallback branch. -/
theorem invalid_front_type_behavior (w h d gt tt bt lt rt bkt fth sth : ℚ)
    (sa : ℤ) (cc fc : Color) (hw : Bool) (ft ct : ℤ) (hft : ft < -2)
    (hct : ct = ConnectorType.SIDES_WIN ∨ ct = ConnectorType.TOP_BOTTOM_WIN ∨
      ct = ConnectorType.MITERED) :
    (partsOf (create_cabinet w h d ft gt tt bt lt rt bkt fth sth sa ct cc fc hw)).map
      (fun p => (p.fronts, p.hinges,
        shapeD p.panels.top.shape, shapeD p.panels.bottom.shape,
        shapeD p.panels.left_side.shape, shapeD p.panels.right_side.shape)) =
      some ([], [], d - fth, d - fth, d - fth, d - fth) := by
  have hfr := create_fronts_fallthrough w h (adjusted_depth_for d fth ft) fth ft hw hft
  have hadj : adjusted_depth_for d fth ft = d - fth :=
    adjusted_depth_of_ne d fth ft (by simp only [FrontType.NONE]; omega)
  rcases hct with hct | hct | hct <;> subst hct
  · rw [create_cabinet_eq gt bkt sth sa cc fc
      (connector_adjustments_sides tt bt lt rt) hfr]
    simp [partsOf, carcass_panels, box_translate, shapeD, hadj]
  · rw [create_cabinet_eq gt bkt sth sa cc fc
      (connector_adjustments_top_bottom tt bt lt rt) hfr]
    simp [partsOf, carcass_panels, box_translate, shapeD, hadj]
  · rw [create_cabinet_eq gt bkt sth sa cc fc
      (connector_adjustments_mitered tt bt lt rt) hfr]
    simp [partsOf, carcass_panels, box_translate, shapeD, hadj]

/-- Witness for invalid_front_type_behavior: front-type -3 on a
600 x 720 x 560 cabinet with 18 mm panels and connector code 0. -/
theorem invalid_front_type_behavior_witness :
    (-3 : ℤ) < -2 ∧
    (partsOf (create_cabinet 600 720 560 (-3) 18 18 18 18 18 18 18 18 0 0
        ⟨0, 0, 1⟩ ⟨1, 0, 0⟩ false)).map
      (fun p => (p.fronts, p.hinges,
        shapeD p.panels.top.shape, shapeD p.panels.bottom.shape,
        shapeD p.panels.left_side.shape, shapeD p.panels.right_side.shape)) =
      some ([], [], 560 - 18, 560 - 18, 560 - 18, 560 - 18) :=
  ⟨by decide,
   invalid_front_type_behavior 600 720 560 18 18 18 18 18 18 18 18 0
     ⟨0, 0, 1⟩ ⟨1, 0, 0⟩ false (-3) 0 (by decide) (Or.inl rfl)⟩

/-- C3 counterexample: with the recognized connector code 0 and the
unrecognized front-type code -3, cabinet creation does not fail with
the invalid-configuration error - it succeeds - refuting the claim that
every unrecognized front-type code fails. -/
theorem config_error_counterexample :
    create_cabinet 600 720 560 (-3) 18 18 18 18 18 18 18 18 0 0
        ⟨0, 0, 1⟩ ⟨1, 0, 0⟩ false ≠ .error .invalidConfiguration ∧
    (partsOf (create_cabinet 600 720 560 (-3) 18 18 18 18 18 18 18 18 0 0
        ⟨0, 0, 1⟩ ⟨1, 0, 0⟩ false)).isSome = true := by
  have hfr := create_fronts_fallthrough 600 720
    (adjusted_depth_for 560 18 (-3)) 18 (-3) false (by decide)
  rw [create_cabinet_eq 18 18 18 0 ⟨0, 0, 1⟩ ⟨1, 0, 0⟩
    (show connector_adjustments 18 18 18 18 0 = .ok (18 + 18, 0) from
      connector_adjustments_sides 18 18 18 18) hfr]
  constructor
  · simp
  · simp [partsOf]

/-- C3 amended: cabinet creation fails with the invalid-configuration
error for every unrecognized connector-type code, but an unrecognized
front-type code (any value below -2, e.g. -3) does not fail: the front
dispatch has no fallback branch and silently yields an empty front
list. -/
theorem config_error_spec :
    (∀ (w h d gt tt bt lt rt bkt fth sth : ℚ) (sa ft ct : ℤ)
      (cc fc : Color) (hw : Bool),
      ct ≠ ConnectorType.SIDES_WIN → ct ≠ ConnectorType.TOP_BOTTOM_WIN →
      ct ≠ ConnectorType.MITERED →
      create_cabinet w h d ft gt tt bt lt rt bkt fth sth sa ct cc fc hw =
        .error .invalidConfiguration) ∧
    (∀ (w h d gt tt bt lt rt bkt fth sth : ℚ) (sa ft ct : ℤ)
      (cc fc : Color) (hw : Bool),
      ft < -2 →
      (ct = ConnectorType.SIDES_WIN ∨ ct = ConnectorType.TOP_BOTTOM_WIN ∨
        ct = ConnectorType.MITERED) →
      (partsOf (create_cabinet w h d ft gt tt bt lt rt bkt fth sth sa ct cc fc hw)).map
        (fun p => p.fronts) = some []) := by
  constructor
  · intro w h d gt tt bt lt rt bkt fth sth sa ft ct cc fc hw h0 h1 h2
    exact create_cabinet_conn_err w h d ft gt bkt fth sth sa cc fc hw
      (connector_adjustments_invalid tt bt lt rt ct h0 h1 h2)
  · intro w h d gt tt bt lt rt bkt fth sth sa ft ct cc fc hw hft hct
    have hfr := create_fronts_fallthrough w h (adjusted_depth_for d fth ft) fth ft hw hft
    rcases hct with hct | hct | hct <;> subst hct
    · rw [create_cabinet_eq gt bkt sth sa cc fc
        (connector_adjustments_sides tt bt lt rt) hfr]
      simp [partsOf]
    · rw [create_cabinet_eq gt bkt sth sa cc fc
        (connector_adjustments_top_bottom tt bt lt rt) hfr]
      simp [partsOf]
    · rw [create_cabinet_eq gt bkt sth sa cc fc
        (connector_adjustments_mitered tt bt lt rt) hfr]
      simp [partsOf]

/-- Witness for config_error_spec: connector code 5 fails with the
invalid-configuration error; front-type -3 with connector code 0
succeeds with no fronts. -/
theorem config_error_spec_witness :
    create_cabinet 600 720 560 0 18 18 18 18 18 18 18 18 0 5
        ⟨0, 0, 1⟩ ⟨1, 0, 0⟩ false = .error .invalidConfiguration ∧
    (partsOf (create_cabinet 600 720 560 (-3) 18 18 18 18 18 18 18 18 0 0
        ⟨0, 0, 1⟩ ⟨1, 0, 0⟩ false)).map (fun p => p.fronts) = some [] :=
  ⟨config_error_spec.1 600 720 560 18 18 18 18 18 18 18 18 0 0 5
      ⟨0, 0, 1⟩ ⟨1, 0, 0⟩ false (by decide) (by decide) (by decide),
   config_error_spec.2 600 720 560 18 18 18 18 18 18 18 18 0 (-3) 0
      ⟨0, 0, 1⟩ ⟨1, 0, 0⟩ false (by decide) (Or.inl rfl)⟩

theorem pyFloat_twelve_point_five : pyFloat? "12.5" = some (25 / 2) := by
  have h1 : trimChars ['1', '2', '.', '5'] = ['1', '2', '.', '5'] := by decide
  have h2 : splitDot ['1', '2', '.', '5'] = [['1', '2'], ['5']] := by decide
  have h3 : parseDigits? ['1', '2'] = some 12 := by decide
  have h4 : parseDigits? ['5'] = some 5 := by decide
  simp [pyFloat?, h1, h2, h3, h4]
  norm_num

/-- C7: thickness resolution returns the global thickness when the
override is absent or blank, returns the parsed float value when the
override is a parseable numeric string (resolving "12.5" yields 12.5),
and fails with the invalid-numeric-value error when the override is
present, non-blank, and not parseable as a float. -/
theorem thickness_resolution_spec :
    (∀ g : ℚ, get_panel_thickness g none = .ok g) ∧
    (∀ (g : ℚ) (s : String), trimChars s.data = [] →
      get_panel_thickness g (some s) = .ok g) ∧
    (∀ (g v : ℚ) (s : String), trimChars s.data ≠ [] →
      pyFloat? s = some v → get_panel_thickness g (some s) = .ok v) ∧
    (∀ g : ℚ, get_panel_thickness g (some "12.5") = .ok (25 / 2)) ∧
    (∀ (g : ℚ) (s : String), trimChars s.data ≠ [] →
      pyFloat? s = none →
      get_panel_thickness g (some s) = .error .invalidNumericValue) := by
  refine ⟨fun g => rfl, ?_, ?_, ?_, ?_⟩
  · intro g s hb
    simp [get_panel_thickness, hb]
  · intro g v s hb hp
    simp [get_panel_thickness, hb, hp]
  · intro g
    have hb : trimChars "12.5".data ≠ [] := by decide
    simp [get_panel_thickness, hb, pyFloat_twelve_point_five]
  · intro g s hb hp
    simp [get_panel_thickness, hb, hp]

/-- Witness for thickness_resolution_spec: an absent override and the
blank override "  " resolve to the global 18; "12.5" resolves to 12.5;
the unparsable override "abc" fails. -/
theorem thickness_resolution_spec_witness :
    get_panel_thickness 18 none = .ok 18 ∧
    get_panel_thickness 18 (some "  ") = .ok 18 ∧
    get_panel_thickness 18 (some "12.5") = .ok (25 / 2) ∧
    get_panel_thickness 18 (some "abc") = .error .invalidNumericValue :=
  ⟨thickness_resolution_spec.1 18,
   thickness_resolution_spec.2.1 18 "  " (by decide),
   thickness_resolution_spec.2.2.2.1 18,
   thickness_resolution_spec.2.2.2.2 18 "abc" (by decide) (by decide)⟩

theorem pyFloat_minus_five : pyFloat? "-5" = some (-5) := by
  have h1 : trimChars ['-', '5'] = ['-', '5'] := by decide
  have h2 : splitDot ['5'] = [['5']] := by decide
  have h4 : parseDigits? ['5'] = some 5 := by decide
  simp [pyFloat?, h1, h2, h4]

/-- C10: thickness resolution performs no positivity check: for every
non-blank override string parseable as a float whose value is zero or
negative, it returns that non-positive value without error, and the
value propagates into the generated geometry (here: as the depth extent
of the back panel when used as the back-thickness). -/
theorem thickness_no_positivity_check :
    (∀ (g v : ℚ) (s : String), trimChars s.data ≠ [] →
      pyFloat? s = some v → v ≤ 0 → get_panel_thickness g (some s) = .ok v) ∧
    (∀ (w h d gt tt bt lt rt fth sth v : ℚ) (sa ft ct : ℤ)
      (cc fc : Color) (hw : Bool),
      (ct = ConnectorType.SIDES_WIN ∨ ct = ConnectorType.TOP_BOTTOM_WIN ∨
        ct = ConnectorType.MITERED) →
      (hw = false ∨ h ≤ 3000) →
      (partsOf (create_cabinet w h d ft gt tt bt lt rt v fth sth sa ct cc fc hw)).map
        (fun p => shapeD p.panels.back.shape) = some v) := by
  constructor
  · intro g v s hb hp hv
    simp [get_panel_thickness, hb, hp]
  · intro w h d gt tt bt lt rt fth sth v sa ft ct cc fc hw hct hhw
    obtain ⟨⟨fr, hi⟩, hfr⟩ :=
      create_fronts_ok w h (adjusted_depth_for d fth ft) fth ft hw hhw
    rcases hct with hct | hct | hct <;> subst hct
    · rw [create_cabinet_eq gt v sth sa cc fc
        (connector_adjustments_sides tt bt lt rt) hfr]
      simp [partsOf, carcass_panels, box_translate, shapeD]
    · rw [create_cabinet_eq gt v sth sa cc fc
        (connector_adjustments_top_bottom tt bt lt rt) hfr]
      simp [partsOf, carcass_panels, box_translate, shapeD]
    · rw [create_cabinet_eq gt v sth sa cc fc
        (connector_adjustments_mitered tt bt lt rt) hfr]
      simp [partsOf, carcass_panels, box_translate, shapeD]

/-- Witness for thickness_no_positivity_check: the override "-5"
resolves to -5 without error, and a back thickness of -5 appears
directly as the back panel's depth extent. -/
theorem thickness_no_positivity_check_witness :
    get_panel_thickness 18 (some "-5") = .ok (-5) ∧
    (partsOf (create_cabinet 600 720 560 0 18 18 18 18 18 (-5) 18 18 0 0
        ⟨0, 0, 1⟩ ⟨1, 0, 0⟩ false)).map
      (fun p => shapeD p.panels.back.shape) = some (-5) := by
  exact ⟨thickness_no_positivity_check.1 18 (-5) "-5" (by decide)
      pyFloat_minus_five (by norm_num),
    thickness_no_positivity_check.2 600 720 560 18 18 18 18 18 18 18 (-5) 0 0 0
      ⟨0, 0, 1⟩ ⟨1, 0, 0⟩ false (Or.inl rfl) (Or.inl rfl)⟩

theorem map_const_eq_replicate {α β : Type} (b : α) (l : List β) :
    l.map (fun x => b) = List.replicate l.length b := by
  induction l with
  | nil => rfl
  | cons a t ih => simp [ih, List.replicate_succ]

/-- The shelf list of create_cabinet, projected on center height, width
extent and depth extent. -/
theorem cabinet_shelves_spec (w h d adjD tt bt lt rt bkt fth sth : ℚ) (sa : ℤ)
    (hsa : 0 < sa) (hbk : 0 ≤ bkt) :
    ((cabinet_shelves w h d adjD tt bt lt rt bkt fth sth sa).map (fun s => s.pos.y) =
      (List.range sa.toNat).map (fun i : ℕ =>
        bt + ((i : ℚ) + 1) * ((h - tt - bt) / ((sa : ℚ) + 1)))) ∧
    ((cabinet_shelves w h d adjD tt bt lt rt bkt fth sth sa).map
        (fun s => shapeW s.shape) =
      List.replicate sa.toNat (w - lt - rt)) ∧
    ((cabinet_shelves w h d adjD tt bt lt rt bkt fth sth sa).map
        (fun s => shapeD s.shape) =
      List.replicate sa.toNat (if 0 < bkt then adjD - bkt else adjD)) := by
  unfold cabinet_shelves
  rw [if_pos hsa]
  refine ⟨?_, ?_, ?_⟩
  · simp [List.map_map, box_translate, Function.comp_def]
  · have := map_const_eq_replicate (w - lt - rt) (List.range sa.toNat)
    simp only [List.length_range] at this
    simp [List.map_map, box_translate, shapeW, Function.comp_def, this]
  · rcases eq_or_lt_of_le hbk with h0 | h0
    · have := map_const_eq_replicate adjD (List.range sa.toNat)
      simp only [List.length_range] at this
      simp [List.map_map, box_translate, shapeD, Function.comp_def, ← h0, this]
    · have := map_const_eq_replicate (adjD - bkt) (List.range sa.toNat)
      simp only [List.length_range] at this
      simp [List.map_map, box_translate, shapeD, Function.comp_def, h0, h0.ne.symm, this]

/-- C5: for every cabinet with shelfCount > 0 (back thickness
nonnegative, as in every valid spec), shelf i (0-indexed) has center
height bottomThickness + (i + 1) * (height - topThickness -
bottomThickness) / (shelfCount + 1), width extent
width - leftThickness - rightThickness, and depth extent
adjustedDepth - backThickness when backThickness > 0 and adjustedDepth
otherwise; in particular for height 1000, topThickness 18,
bottomThickness 18, shelfCount 3 the three shelf centers are
259, 500, 741 - evenly spaced with equal gaps of 241. -/
theorem shelf_layout_spec :
    (∀ (w h d gt tt bt lt rt bkt fth sth : ℚ) (sa ft ct : ℤ)
      (cc fc : Color) (hw : Bool),
      0 < sa → 0 ≤ bkt →
      (ct = ConnectorType.SIDES_WIN ∨ ct = ConnectorType.TOP_BOTTOM_WIN ∨
        ct = ConnectorType.MITERED) →
      (hw = false ∨ h ≤ 3000) →
      ((shelvesOf (create_cabinet w h d ft gt tt bt lt rt bkt fth sth sa ct cc fc hw)).map
          (fun s => s.pos.y) =
        (List.range sa.toNat).map (fun i : ℕ =>
          bt + ((i : ℚ) + 1) * ((h - tt - bt) / ((sa : ℚ) + 1)))) ∧
      ((shelvesOf (create_cabinet w h d ft gt tt bt lt rt bkt fth sth sa ct cc fc hw)).map
          (fun s => shapeW s.shape) =
        List.replicate sa.toNat (w - lt - rt)) ∧
      ((shelvesOf (create_cabinet w h d ft gt tt bt lt rt bkt fth sth sa ct cc fc hw)).map
          (fun s => shapeD s.shape) =
        List.replicate sa.toNat
          (if 0 < bkt then adjusted_depth_for d fth ft - bkt
           else adjusted_depth_for d fth ft))) ∧
    ((shelvesOf (create_cabinet 600 1000 560 0 18 18 18 18 18 18 18 18 3 0
        ⟨0, 0, 1⟩ ⟨1, 0, 0⟩ false)).map (fun s => s.pos.y) = [259, 500, 741]) := by
  have general : ∀ (w h d gt tt bt lt rt bkt fth sth : ℚ) (sa ft ct : ℤ)
      (cc fc : Color) (hw : Bool),
      0 < sa → 0 ≤ bkt →
      (ct = ConnectorType.SIDES_WIN ∨ ct = ConnectorType.TOP_BOTTOM_WIN ∨
        ct = ConnectorType.MITERED) →
      (hw = false ∨ h ≤ 3000) →
      ((shelvesOf (create_cabinet w h d ft gt tt bt lt rt bkt fth sth sa ct cc fc hw)).map
          (fun s => s.pos.y) =
        (List.range sa.toNat).map (fun i : ℕ =>
          bt + ((i : ℚ) + 1) * ((h - tt - bt) / ((sa : ℚ) + 1)))) ∧
      ((shelvesOf (create_cabinet w h d ft gt tt bt lt rt bkt fth sth sa ct cc fc hw)).map
          (fun s => shapeW s.shape) =
        List.replicate sa.toNat (w - lt - rt)) ∧
      ((shelvesOf (create_cabinet w h d ft gt tt bt lt rt bkt fth sth sa ct cc fc hw)).map
          (fun s => shapeD s.shape) =
        List.replicate sa.toNat
          (if 0 < bkt then adjusted_depth_for d fth ft - bkt
           else adjusted_depth_for d fth ft)) := by
    intro w h d gt tt bt lt rt bkt fth sth sa ft ct cc fc hw hsa hbk hct hhw
    obtain ⟨⟨fr, hi⟩, hfr⟩ :=
      create_fronts_ok w h (adjusted_depth_for d fth ft) fth ft hw hhw
    have key := cabinet_shelves_spec w h d (adjusted_depth_for d fth ft)
      tt bt lt rt bkt fth sth sa hsa hbk
    rcases hct with hct | hct | hct <;> subst hct
    · rw [create_cabinet_eq gt bkt sth sa cc fc
        (connector_adjustments_sides tt bt lt rt) hfr]
      simpa [shelvesOf] using key
    · rw [create_cabinet_eq gt bkt sth sa cc fc
        (connector_adjustments_top_bottom tt bt lt rt) hfr]
      simpa [shelvesOf] using key
    · rw [create_cabinet_eq gt bkt sth sa cc fc
        (connector_adjustments_mitered tt bt lt rt) hfr]
      simpa [shelvesOf] using key
  refine ⟨general, ?_⟩
  have inst := (general 600 1000 560 18 18 18 18 18 18 18 18 3 0 0
    ⟨0, 0, 1⟩ ⟨1, 0, 0⟩ false (by decide) (by norm_num) (Or.inl rfl) (Or.inl rfl)).1
  rw [inst]
  norm_num [show List.range (3 : ℤ).toNat = [0, 1, 2] from rfl]

/-- Witness for shelf_layout_spec: the concrete 600 x 1000 x 560 cabinet
with 3 shelves satisfies the general shelf-center formula. -/
theorem shelf_layout_spec_witness :
    (0 : ℤ) < 3 ∧ (0 : ℚ) ≤ 18 ∧
    ((shelvesOf (create_cabinet 600 1000 560 0 18 18 18 18 18 18 18 18 3 0
        ⟨0, 0, 1⟩ ⟨1, 0, 0⟩ false)).map (fun s => s.pos.y) =
      (List.range (3 : ℤ).toNat).map (fun i : ℕ =>
        18 + ((i : ℚ) + 1) * ((1000 - 18 - 18) / (((3 : ℤ) : ℚ) + 1)))) :=
  ⟨by decide, by norm_num,
   (shelf_layout_spec.1 600 1000 560 18 18 18 18 18 18 18 18 3 0 0
     ⟨0, 0, 1⟩ ⟨1, 0, 0⟩ false (by decide) (by norm_num)
     (Or.inl rfl) (Or.inl rfl)).1⟩

theorem map_eq_replicate_of_const {α β : Type} (f : α → β) (b : β) (l : List α)
    (hf : ∀ x ∈ l, f x = b) : l.map f = List.replicate l.length b := by
  induction l with
  | nil => rfl
  | cons a t ih =>
    simp only [List.map_cons, List.length_cons, List.replicate_succ]
    rw [hf a (by simp), ih (fun x hx => hf x (by simp [hx]))]

/-- Every part of one cabinet is added under the same location
(position + width / 2, 0, -depth / 2). -/
theorem add_cabinet_locs (name : String) (parts : CabinetParts)
    (cc fc : Color) (pos w d : ℚ) :
    (add_cabinet_to_assembly name parts cc fc pos w d).map AsmItem.loc =
      List.replicate (add_cabinet_to_assembly name parts cc fc pos w d).length
        ⟨pos + w / 2, 0, -d / 2⟩ := by
  apply map_eq_replicate_of_const
  intro x hx
  simp only [add_cabinet_to_assembly, panelsList, List.mem_append, List.mem_map,
    List.mem_cons, List.not_mem_nil, or_false] at hx
  rcases hx with ((((⟨p, hp, rfl⟩ | ⟨p, hp, rfl⟩) | ⟨p, hp, rfl⟩) | ⟨p, hp, rfl⟩) |
    ⟨p, hp, rfl⟩) <;> rfl

/-- The layout loop places cabinet k of the remaining rows at the
running position plus the sum of the widths of the rows before it. -/
theorem main_layout_from_spec (rows : List CabinetRow) :
    ∀ (x : ℚ) (k : ℕ) (row : CabinetRow) (items : List AsmItem),
      rows.get? k = some row → (main_layout_from x rows).get? k = some items →
      items.map AsmItem.loc = List.replicate items.length
        ⟨x + ((rows.take k).map CabinetRow.width).sum + row.width / 2, 0,
          -row.depth / 2⟩ := by
  induction rows with
  | nil =>
    intro x k row items h1 h2
    simp at h1
  | cons r rs ih =>
    intro x k row items h1 h2
    cases k with
    | zero =>
      simp only [List.get?_cons_zero, Option.some.injEq] at h1
      simp only [main_layout_from, List.get?_cons_zero, Option.some.injEq] at h2
      subst h1
      subst h2
      simpa using add_cabinet_locs r.name r.parts r.corpus_color
        r.front_color x r.width r.depth
    | succ k =>
      simp only [List.get?_cons_succ] at h1
      simp only [main_layout_from, List.get?_cons_succ] at h2
      have h3 := ih (x + r.width) k row items h1 h2
      have harith : x + r.width + ((rs.take k).map CabinetRow.width).sum =
          x + (((r :: rs).take (k + 1)).map CabinetRow.width).sum := by
        simp [List.take_succ_cons]
        ring
      rw [← harith]
      exact h3

/-- A degenerate solid used as a layout test fixture. -/
def demoSolid : Solid := ⟨.box 0 0 0, ⟨0, 0, 0⟩, []⟩

/-- Degenerate cabinet parts used as a layout test fixture. -/
def demoParts : CabinetParts :=
  ⟨⟨demoSolid, demoSolid, demoSolid, demoSolid, demoSolid⟩, [], [], [], []⟩

/-- Three test cabinets of widths 500, 700, 300 and depth 600. -/
def demoRows : List CabinetRow :=
  [⟨"a", 500, 600, demoParts, ⟨0, 0, 1⟩, ⟨1, 0, 0⟩⟩,
   ⟨"b", 700, 600, demoParts, ⟨0, 0, 1⟩, ⟨1, 0, 0⟩⟩,
   ⟨"c", 300, 600, demoParts, ⟨0, 0, 1⟩, ⟨1, 0, 0⟩⟩]

/-- C6: for every batch of cabinets processed in input order, cabinet k
is placed at horizontal offset equal to the sum of the widths of
cabinets 0..k-1 (the running position starts at 0 and accumulates each
width after placement), with every part of the cabinet placed under the
location (runningX + width / 2, 0, -depth / 2); in particular widths
500, 700, 300 give horizontal center placements 250, 850, 1350. -/
theorem cabinet_layout_spec :
    (∀ (rows : List CabinetRow) (k : ℕ) (row : CabinetRow) (items : List AsmItem),
      rows.get? k = some row → (main_layout rows).get? k = some items →
      items.map AsmItem.loc = List.replicate items.length
        ⟨((rows.take k).map CabinetRow.width).sum + row.width / 2, 0,
          -row.depth / 2⟩) ∧
    ((main_layout demoRows).map (fun items => items.head?.map (fun it => it.loc.x)) =
      [some 250, some 850, some 1350]) := by
  constructor
  · intro rows k row items h1 h2
    have h3 := main_layout_from_spec rows 0 k row items h1 h2
    simpa using h3
  · simp [main_layout, main_layout_from, demoRows, add_cabinet_to_assembly,
      panelsList]
    norm_num

/-- Witness for cabinet_layout_spec: the middle cabinet of the
three-cabinet demo batch sits at running offset 500, center 850. -/
theorem cabinet_layout_spec_witness :
    demoRows.get? 1 = some ⟨"b", 700, 600, demoParts, ⟨0, 0, 1⟩, ⟨1, 0, 0⟩⟩ ∧
    (main_layout demoRows).get? 1 = some (add_cabinet_to_assembly "b" demoParts
      ⟨0, 0, 1⟩ ⟨1, 0, 0⟩ (0 + 500) 700 600) ∧
    ((add_cabinet_to_assembly "b" demoParts ⟨0, 0, 1⟩ ⟨1, 0, 0⟩ (0 + 500) 700 600).map
        AsmItem.loc =
      List.replicate (add_cabinet_to_assembly "b" demoParts ⟨0, 0, 1⟩ ⟨1, 0, 0⟩
          (0 + 500) 700 600).length
        ⟨((demoRows.take 1).map CabinetRow.width).sum + (700 : ℚ) / 2, 0,
          -(600 : ℚ) / 2⟩) :=
  ⟨rfl, rfl,
   cabinet_layout_spec.1 demoRows 1 ⟨"b", 700, 600, demoParts, ⟨0, 0, 1⟩, ⟨1, 0, 0⟩⟩
     (add_cabinet_to_assembly "b" demoParts ⟨0, 0, 1⟩ ⟨1, 0, 0⟩ (0 + 500) 700 600)
     rfl rfl⟩

/-- The voids accumulated by the hinge-cutting loop: one void per hinge,
in loop order, appended to the door's existing voids. -/
theorem foldl_cut_cuts (g : Solid → Solid) (l : List Solid) (s : Solid) :
    (l.foldl (fun acc hg => acc.cut (g hg)) s).cuts =
      s.cuts ++ l.map (fun hg => ((g hg).shape, (g hg).pos)) := by
  induction l generalizing s with
  | nil => simp
  | cons a t ih =>
    rw [List.foldl_cons, ih]
    simp [Solid.cut]

/-- The cutting loop does not change which solid is being cut. -/
theorem foldl_cut_shape (g : Solid → Solid) (l : List Solid) (s : Solid) :
    (l.foldl (fun acc hg => acc.cut (g hg)) s).shape = s.shape := by
  induction l generalizing s with
  | nil => rfl
  | cons a t ih =>
    rw [List.foldl_cons, ih]
    rfl

/-- Closed form of the single-door dispatch with hardware enabled. -/
theorem create_fronts_door_eq (w h adjD fth : ℚ) (hs : List Solid)
    (hh : create_hinges h hinge_diameter hinge_length = .ok hs) :
    create_fronts_and_hinges w h adjD fth FrontType.DOOR true =
      .ok ([hs.foldl (fun dd hg => dd.cut (hg.translate
              ⟨w / 2 - hinge_diameter / 2 - distance_hole_edge_of_front, 0,
               adjD / 2 + hinge_length / 2⟩))
            ((box w h fth).translate ⟨0, h / 2, adjD / 2 + fth / 2⟩)],
           hs.map (fun hg => hg.translate
              ⟨w / 2 - hinge_diameter / 2 - distance_hole_edge_of_front, 0,
               adjD / 2 + hinge_length / 2⟩)) := by
  simp [create_fronts_and_hinges, hh]

/-- Closed form of the double-door dispatch with hardware enabled: the
voids are cut at the in-door positions while the recorded hardware
parts are translated by the extra offset (for the left door:
positionX - door_width on x and height / 2 on y). -/
theorem create_fronts_double_eq (w h adjD fth : ℚ) (hs : List Solid)
    (hh : create_hinges h hinge_diameter hinge_length = .ok hs) :
    create_fronts_and_hinges w h adjD fth FrontType.DOUBLE_DOORS true =
      .ok ([hs.foldl (fun dd hg => dd.cut (hg.translate
              ⟨-(w / 2 / 2 - hinge_diameter / 2) + distance_hole_edge_of_front, 0,
               adjD / 2 + hinge_length / 2⟩))
            ((box (w / 2) h fth).translate ⟨-w / 4, h / 2, adjD / 2 + fth / 2⟩),
            hs.foldl (fun dd hg => dd.cut (hg.translate
              ⟨w / 2 / 2 - hinge_diameter / 2 - distance_hole_edge_of_front, 0,
               adjD / 2 + hinge_length / 2⟩))
            ((box (w / 2) h fth).translate ⟨w / 4, h / 2, adjD / 2 + fth / 2⟩)],
           hs.map (fun hg => hg.translate
              ⟨-(w / 2 / 2 - hinge_diameter / 2) + distance_hole_edge_of_front - w / 2,
               h / 2, adjD / 2 + hinge_length / 2⟩) ++
           hs.map (fun hg => hg.translate
              ⟨w / 2 / 2 - hinge_diameter / 2 - distance_hole_edge_of_front + w / 2,
               h / 2, adjD / 2 + hinge_length / 2⟩)) := by
  simp [create_fronts_and_hinges, hh, FrontType.DOOR, FrontType.DOUBLE_DOORS]

theorem connector_adjustments_valid (tt bt lt rt : ℚ) (ct : ℤ)
    (hct : ct = ConnectorType.SIDES_WIN ∨ ct = ConnectorType.TOP_BOTTOM_WIN ∨
      ct = ConnectorType.MITERED) :
    ∃ p, connector_adjustments tt bt lt rt ct = .ok p := by
  rcases hct with h | h | h <;> subst h
  · exact ⟨_, connector_adjustments_sides tt bt lt rt⟩
  · exact ⟨_, connector_adjustments_top_bottom tt bt lt rt⟩
  · exact ⟨_, connector_adjustments_mitered tt bt lt rt⟩

theorem map_congr_fun {α β : Type} (l : List α) (f g : α → β)
    (hfg : ∀ a, f a = g a) : l.map f = l.map g := by
  induction l with
  | nil => rfl
  | cons a t ih => simp [hfg a, ih]

/-- C4 corrected: with hardware enabled, for a single-door front every
hinge cylinder subtracted from the door is recorded as a hardware part
at exactly the position of the subtracted void; for a double-door front
it is not: each left-door hinge part is recorded offset by
(-width / 2, height / 2, 0) from its void and each right-door hinge
part by (+width / 2, height / 2, 0), width / 2 being the door width. -/
theorem hinge_void_record_spec :
    (∀ (w h d gt tt bt lt rt bkt fth sth : ℚ) (sa ct : ℤ) (cc fc : Color),
      (ct = ConnectorType.SIDES_WIN ∨ ct = ConnectorType.TOP_BOTTOM_WIN ∨
        ct = ConnectorType.MITERED) → h ≤ 3000 →
      recordedHingePositions (create_cabinet w h d FrontType.DOOR gt tt bt lt rt
          bkt fth sth sa ct cc fc true) =
        doorVoidPositions (create_cabinet w h d FrontType.DOOR gt tt bt lt rt
          bkt fth sth sa ct cc fc true) 0) ∧
    (∀ (w h d gt tt bt lt rt bkt fth sth : ℚ) (sa ct : ℤ) (cc fc : Color),
      (ct = ConnectorType.SIDES_WIN ∨ ct = ConnectorType.TOP_BOTTOM_WIN ∨
        ct = ConnectorType.MITERED) → h ≤ 3000 →
      recordedHingePositions (create_cabinet w h d FrontType.DOUBLE_DOORS gt tt bt
          lt rt bkt fth sth sa ct cc fc true) =
        (doorVoidPositions (create_cabinet w h d FrontType.DOUBLE_DOORS gt tt bt
            lt rt bkt fth sth sa ct cc fc true) 0).map
          (fun v => ⟨v.x - w / 2, v.y + h / 2, v.z⟩) ++
        (doorVoidPositions (create_cabinet w h d FrontType.DOUBLE_DOORS gt tt bt
            lt rt bkt fth sth sa ct cc fc true) 1).map
          (fun v => ⟨v.x + w / 2, v.y + h / 2, v.z⟩)) := by
  constructor
  · intro w h d gt tt bt lt rt bkt fth sth sa ct cc fc hct h3
    have hh := create_hinges_ok h hinge_diameter hinge_length h3
    have hfr := create_fronts_door_eq w h
      (adjusted_depth_for d fth FrontType.DOOR) fth _ hh
    obtain ⟨⟨wa, ha⟩, hconn⟩ := connector_adjustments_valid tt bt lt rt ct hct
    rw [create_cabinet_eq gt bkt sth sa cc fc hconn hfr]
    simp [recordedHingePositions, doorVoidPositions, foldl_cut_cuts, box_translate,
      box, List.map_map, Function.comp_def, Solid.translate]
  · intro w h d gt tt bt lt rt bkt fth sth sa ct cc fc hct h3
    have hh := create_hinges_ok h hinge_diameter hinge_length h3
    have hfr := create_fronts_double_eq w h
      (adjusted_depth_for d fth FrontType.DOUBLE_DOORS) fth _ hh
    obtain ⟨⟨wa, ha⟩, hconn⟩ := connector_adjustments_valid tt bt lt rt ct hct
    rw [create_cabinet_eq gt bkt sth sa cc fc hconn hfr]
    simp [recordedHingePositions, doorVoidPositions, foldl_cut_cuts, box_translate,
      box, List.map_map, Function.comp_def, Solid.translate]
    congr 1
    · apply map_congr_fun
      intro a
      simp [Vec3.add, Vec3.mk.injEq]
    · apply map_congr_fun
      intro a
      simp [Vec3.add, Vec3.mk.injEq]

/-- A concrete double-door cabinet with hardware: 600 wide, 500 high,
560 deep, 18 mm panels, sides-win connector. -/
def doubleDoorCab : Except CabError CabinetParts :=
  create_cabinet 600 500 560 FrontType.DOUBLE_DOORS 18 18 18 18 18 18 18 18 0 0
    ⟨0, 0, 1⟩ ⟨1, 0, 0⟩ true

theorem create_hinges_500 :
    create_hinges 500 hinge_diameter hinge_length =
      .ok [⟨.cylinder hinge_length (hinge_diameter / 2), ⟨0, 90, 0⟩, []⟩,
           ⟨.cylinder hinge_length (hinge_diameter / 2), ⟨0, 410, 0⟩, []⟩] := by
  rw [create_hinges_ok 500 hinge_diameter hinge_length (by norm_num)]
  norm_num [num_hinges_for, show List.range 2 = [0, 1] from rfl]

/-- C4 counterexample: on the concrete double-door cabinet the four
recorded hinge parts sit at x = -+427.5 and heights 340 and 660, while
the four subtracted voids sit at x = -+127.5 and heights 90 and 410:
the recorded positions differ from the void positions. -/
theorem hinge_void_record_counterexample :
    recordedHingePositions doubleDoorCab =
      [⟨-855 / 2, 340, 555 / 2⟩, ⟨-855 / 2, 660, 555 / 2⟩,
       ⟨855 / 2, 340, 555 / 2⟩, ⟨855 / 2, 660, 555 / 2⟩] ∧
    doorVoidPositions doubleDoorCab 0 ++ doorVoidPositions doubleDoorCab 1 =
      [⟨-255 / 2, 90, 555 / 2⟩, ⟨-255 / 2, 410, 555 / 2⟩,
       ⟨255 / 2, 90, 555 / 2⟩, ⟨255 / 2, 410, 555 / 2⟩] ∧
    recordedHingePositions doubleDoorCab ≠
      doorVoidPositions doubleDoorCab 0 ++ doorVoidPositions doubleDoorCab 1 := by
  have hfr := create_fronts_double_eq 600 500
    (adjusted_depth_for 560 18 FrontType.DOUBLE_DOORS) 18 _ create_hinges_500
  have hcab : doubleDoorCab =
      .ok ⟨carcass_panels 600 500 (adjusted_depth_for 560 18 FrontType.DOUBLE_DOORS)
             18 18 18 18 18 (18 + 18) 0,
           _, cabinet_shelves 600 500 560
             (adjusted_depth_for 560 18 FrontType.DOUBLE_DOORS) 18 18 18 18 18 18 18 0,
           _, if 0 < (18 : ℚ) then create_feet 600 560 foot_diameter foot_height
              else []⟩ :=
    create_cabinet_eq 18 18 18 0 ⟨0, 0, 1⟩ ⟨1, 0, 0⟩
      (show connector_adjustments 18 18 18 18 0 = .ok (18 + 18, 0) from rfl) hfr
  have h1 : recordedHingePositions doubleDoorCab =
      [⟨-855 / 2, 340, 555 / 2⟩, ⟨-855 / 2, 660, 555 / 2⟩,
       ⟨855 / 2, 340, 555 / 2⟩, ⟨855 / 2, 660, 555 / 2⟩] := by
    rw [hcab]
    norm_num [recordedHingePositions, Solid.translate, Vec3.add, hinge_diameter,
      hinge_length, distance_hole_edge_of_front, adjusted_depth_for,
      FrontType.DOUBLE_DOORS, FrontType.NONE, Vec3.mk.injEq]
  have h2 : doorVoidPositions doubleDoorCab 0 ++ doorVoidPositions doubleDoorCab 1 =
      [⟨-255 / 2, 90, 555 / 2⟩, ⟨-255 / 2, 410, 555 / 2⟩,
       ⟨255 / 2, 90, 555 / 2⟩, ⟨255 / 2, 410, 555 / 2⟩] := by
    rw [hcab]
    norm_num [doorVoidPositions, Solid.translate, Solid.cut, Vec3.add, box,
      box_translate, hinge_diameter, hinge_length, distance_hole_edge_of_front,
      adjusted_depth_for, FrontType.DOUBLE_DOORS, FrontType.NONE, Vec3.mk.injEq]
  refine ⟨h1, h2, ?_⟩
  rw [h1, h2]
  intro hEq
  norm_num [Vec3.mk.injEq] at hEq

/-- Witness for hinge_void_record_spec: the 600 x 500 x 560 cabinets with
18 mm panels, connector code 0 and hardware on, as a single door and as
double doors. -/
theorem hinge_void_record_spec_witness :
    ((0 : ℤ) = ConnectorType.SIDES_WIN ∨ (0 : ℤ) = ConnectorType.TOP_BOTTOM_WIN ∨
      (0 : ℤ) = ConnectorType.MITERED) ∧ (500 : ℚ) ≤ 3000 ∧
    (recordedHingePositions (create_cabinet 600 500 560 FrontType.DOOR
        18 18 18 18 18 18 18 18 0 0 ⟨0, 0, 1⟩ ⟨1, 0, 0⟩ true) =
      doorVoidPositions (create_cabinet 600 500 560 FrontType.DOOR
        18 18 18 18 18 18 18 18 0 0 ⟨0, 0, 1⟩ ⟨1, 0, 0⟩ true) 0) ∧
    (recordedHingePositions (create_cabinet 600 500 560 FrontType.DOUBLE_DOORS
        18 18 18 18 18 18 18 18 0 0 ⟨0, 0, 1⟩ ⟨1, 0, 0⟩ true) =
      (doorVoidPositions (create_cabinet 600 500 560 FrontType.DOUBLE_DOORS
          18 18 18 18 18 18 18 18 0 0 ⟨0, 0, 1⟩ ⟨1, 0, 0⟩ true) 0).map
        (fun v => ⟨v.x - 600 / 2, v.y + 500 / 2, v.z⟩) ++
      (doorVoidPositions (create_cabinet 600 500 560 FrontType.DOUBLE_DOORS
          18 18 18 18 18 18 18 18 0 0 ⟨0, 0, 1⟩ ⟨1, 0, 0⟩ true) 1).map
        (fun v => ⟨v.x + 600 / 2, v.y + 500 / 2, v.z⟩)) :=
  ⟨Or.inl rfl, by norm_num,
   hinge_void_record_spec.1 600 500 560 18 18 18 18 18 18 18 18 0 0
     ⟨0, 0, 1⟩ ⟨1, 0, 0⟩ (Or.inl rfl) (by norm_num),
   hinge_void_record_spec.2 600 500 560 18 18 18 18 18 18 18 18 0 0
     ⟨0, 0, 1⟩ ⟨1, 0, 0⟩ (Or.inl rfl) (by norm_num)⟩

end Cabinet

